import Mathlib

/-
Verification development for the semantic engine of the hntrl/lang
interpreter. The primitive kernel is translated from build/literals.go;
the statement engine (assignment, if, while, for, switch, guard, blocks,
return-coverage analysis, function binding) is translated from the node
code. Parts of the engine that the repository does not ship in src
(the Object capability model, symbol tables, Construct / ShouldConstruct /
Operate / ShouldOperate, expression resolution) are modelled from the
specification and marked as such in their doc comments. float64 is
modelled as a rational number; int64 as an integer; a Go runtime fault
(index out of range, failed interface conversion, nil dereference) is the
explicit fault value Fault.goFault.
-/

namespace Lang

/-- Operator tokens the engine pattern-matches on (the token enumeration of
the language package). ILLEGAL models the zero value of the token type,
which getEffectOperator returns for unlisted tokens. -/
inductive Token where
  | ILLEGAL
  | ASSIGN
  | ADD_ASSIGN
  | SUB_ASSIGN
  | MUL_ASSIGN
  | PWR_ASSIGN
  | QUO_ASSIGN
  | REM_ASSIGN
  | INC
  | DEC
  | ADD
  | SUB
  | MUL
  | PWR
  | QUO
  | REM
  | EQUALS
  | NOT_EQUALS
  | LESS
  | GREATER
  | LESS_EQUAL
  | GREATER_EQUAL
  | AND
  | OR
  deriving DecidableEq

/-- Static class descriptors. The nine kernel classes come from
build/literals.go; typeC is the structural Type built for destructured
arguments, generic is the GenericObject marker, iterableC and errorC are
the Iterable and Error carriers. Modelled from the spec: the kernel
compares classes by name, so lookups below go through className. -/
inductive Class where
  | nilC
  | boolean
  | string
  | number
  | double
  | float
  | integer
  | date
  | datetime
  | typeC (fields : List (String × Class))
  | generic
  | iterableC (parent : Class)
  | errorC

/-- ClassName of each class, as returned by the Go ClassName methods
(names for typeC, generic, iterableC and errorC are modelled from the
spec since their Go sources are not in src). -/
def Class.className : Class → String
  | .nilC => "<nil>"
  | .boolean => "Boolean"
  | .string => "String"
  | .number => "Number"
  | .double => "Double"
  | .float => "Float"
  | .integer => "Integer"
  | .date => "Date"
  | .datetime => "DateTime"
  | .typeC _ => "Type"
  | .generic => "GenericObject"
  | .iterableC _ => "Iterable"
  | .errorC => "Error"

/-- Host-language datum returned by the Value methods: float64 is
modelled as a rational, int64 as an integer. -/
inductive HostVal where
  | unit
  | int (i : ℤ)
  | float (q : ℚ)
  | bool (b : Bool)
  | str (s : String)

/-- Runtime values of the kernel (the literal types of build/literals.go,
plus the Iterable and Error carriers modelled from the spec). -/
inductive ValueObject where
  | nilV
  | bool (b : Bool)
  | str (s : String)
  | num (q : ℚ)
  | double (q : ℚ)
  | float (q : ℚ)
  | int (i : ℤ)
  | date
  | datetime
  | iterable (parent : Class) (items : List ValueObject)
  | errV (msg : String)

/-- Class of each runtime value, from the Class methods of the literal
types. -/
def ValueObject.cls : ValueObject → Class
  | .nilV => .nilC
  | .bool _ => .boolean
  | .str _ => .string
  | .num _ => .number
  | .double _ => .double
  | .float _ => .float
  | .int _ => .integer
  | .date => .date
  | .datetime => .datetime
  | .iterable p _ => .iterableC p
  | .errV _ => .errorC

/-- Value method of each literal type: NumberLiteral, DoubleLiteral and
FloatLiteral carry float64, IntegerLiteral carries int64, NilLiteral,
DateLiteral and DateTimeLiteral return nil. -/
def ValueObject.value : ValueObject → HostVal
  | .nilV => .unit
  | .bool b => .bool b
  | .str s => .str s
  | .num q => .float q
  | .double q => .float q
  | .float q => .float q
  | .int i => .int i
  | .date => .unit
  | .datetime => .unit
  | .iterable _ _ => .unit
  | .errV _ => .unit

/-- Faults that abort evaluation or validation: positional node errors,
plain errors, the two structural error kinds of the engine, a thrown
Error value, a Go runtime fault (failed type assertion, index out of
range, nil dereference), and fuel exhaustion of the model interpreter. -/
inductive Fault where
  | nodeError (msg : String)
  | genericError (msg : String)
  | notIterableError (msg : String)
  | inoperableSwitchTarget (msg : String)
  | thrown (v : ValueObject)
  | goFault (msg : String)
  | noFuel

/-- Message of a fault, used where the node code wraps an error into a
NodeError via err.Error(). -/
def Fault.msg : Fault → String
  | .nodeError m => m
  | .genericError m => m
  | .notIterableError m => m
  | .inoperableSwitchTarget m => m
  | .thrown _ => "thrown error"
  | .goFault m => m
  | .noFuel => "no fuel"

/-- Rewrap a failure as a NodeError carrying the message, mirroring
NodeError(expr, err.Error()) in the node code. -/
def faultToNode {α : Type} : Except Fault α → Except Fault α
  | .ok a => .ok a
  | .error f => .error (.nodeError f.msg)

/-- Truncation toward zero, the Go conversion int64(float64value). -/
def ratTrunc (q : ℚ) : ℤ :=
  if 0 ≤ q.num then q.num / (q.den : ℤ) else -((-q.num) / (q.den : ℤ))

/-- Ceiling of a rational, used by the Double quantiser. -/
def ratCeil (q : ℚ) : ℤ := -((-q.num).fdiv (q.den : ℤ))

/-- The Double quantiser of build/literals.go: math.Ceil of the value
times 100, divided by 100. -/
def quantDouble (q : ℚ) : ℚ := (ratCeil (q * 100) : ℚ) / 100

/-- Modelled from the spec: math.Pow on float64, restricted to integer
exponents (no claim depends on non-integer exponents; they are modelled
as 0). -/
def hostPow (a b : ℚ) : ℚ :=
  if b.den = 1 then
    (if 0 ≤ b.num then a ^ b.num.toNat else (a ^ (-b.num).toNat)⁻¹)
  else 0

/-- Modelled from the spec: float64 division. Division by zero yields 0
in this model; IEEE infinities are not modelled and no claim depends on
them. -/
def hostQuo (a b : ℚ) : ℚ := a / b

/-- Modelled from the spec: math.Mod for finite operands, the remainder
a - b * trunc(a / b). -/
def hostMod (a b : ℚ) : ℚ := a - b * (ratTrunc (a / b) : ℚ)

/-- Modelled from the spec: the fmt %v rendering of a host value used by
the String constructors (float formatting is approximated by the rational
literal form; no claim depends on the exact text). -/
def HostVal.render : HostVal → String
  | .unit => "<nil>"
  | .int i => toString i
  | .float q => toString q
  | .bool b => if b then "true" else "false"
  | .str s => s

abbrev CtorFn := ValueObject → Except Fault ValueObject

/-- Constructor Number registers for source class Number: reads Value(),
widens an int64 to float64, then asserts float64 - the assertion fails on
remaining host kinds (build/literals.go). -/
def numberFromNumber : CtorFn := fun obj =>
  match obj.value with
  | .int i => .ok (.num (i : ℚ))
  | .float q => .ok (.num q)
  | _ => .error (.goFault ("interface conversion"))

/-- Constructor Number registers for source class Double: the type
assertion obj.(DoubleLiteral). -/
def numberFromDouble : CtorFn := fun obj =>
  match obj with
  | .double q => .ok (.num q)
  | _ => .error (.goFault ("interface conversion"))

/-- Constructor Number registers for source class Integer: the type
assertion obj.(IntegerLiteral), widened by the Go conversion. -/
def numberFromInteger : CtorFn := fun obj =>
  match obj with
  | .int i => .ok (.num (i : ℚ))
  | _ => .error (.goFault ("interface conversion"))

/-- Constructor Number registers for source class Float: the type
assertion obj.(FloatLiteral). -/
def numberFromFloat : CtorFn := fun obj =>
  match obj with
  | .float q => .ok (.num q)
  | _ => .error (.goFault ("interface conversion"))

/-- The shared numeric constructor of Double: asserts Value() to float64
and quantises. An int64-backed source (IntegerLiteral) fails the
assertion. -/
def doubleNumericCtor : CtorFn := fun obj =>
  match obj.value with
  | .float q => .ok (.double (quantDouble q))
  | _ => .error (.goFault ("interface conversion"))

/-- Constructor Integer registers for source class Number: asserts
Value() to float64 and truncates via the Go conversion to int64. -/
def integerFromNumber : CtorFn := fun obj =>
  match obj.value with
  | .float q => .ok (.int (ratTrunc q))
  | _ => .error (.goFault ("interface conversion"))

/-- Constructor Integer registers for source class Double. -/
def integerFromDouble : CtorFn := fun obj =>
  match obj with
  | .double q => .ok (.int (ratTrunc q))
  | _ => .error (.goFault ("interface conversion"))

/-- Constructor Integer registers for source class Integer (identity). -/
def integerFromInteger : CtorFn := fun obj =>
  match obj with
  | .int i => .ok (.int i)
  | _ => .error (.goFault ("interface conversion"))

/-- Constructor Integer registers for source class Float. -/
def integerFromFloat : CtorFn := fun obj =>
  match obj with
  | .float q => .ok (.int (ratTrunc q))
  | _ => .error (.goFault ("interface conversion"))

/-- Constructor Float registers for source class Number: asserts Value()
to float64 (an int64 host value fails the assertion). -/
def floatFromNumber : CtorFn := fun obj =>
  match obj.value with
  | .float q => .ok (.float q)
  | _ => .error (.goFault ("interface conversion"))

/-- Constructor Float registers for source class Double. -/
def floatFromDouble : CtorFn := fun obj =>
  match obj with
  | .double q => .ok (.float q)
  | _ => .error (.goFault ("interface conversion"))

/-- Constructor Float registers for source class Integer (Go widening
conversion). -/
def floatFromInteger : CtorFn := fun obj =>
  match obj with
  | .int i => .ok (.float (i : ℚ))
  | _ => .error (.goFault ("interface conversion"))

/-- Constructor Float registers for source class Float (identity). -/
def floatFromFloat : CtorFn := fun obj =>
  match obj with
  | .float q => .ok (.float q)
  | _ => .error (.goFault ("interface conversion"))

/-- Constructor Boolean registers for source class Boolean: the type
assertion obj.(BooleanLiteral). -/
def booleanFromBoolean : CtorFn := fun obj =>
  match obj with
  | .bool b => .ok (.bool b)
  | _ => .error (.goFault ("interface conversion"))

/-- Constructor String registers for source class String: returns the
object unchanged. -/
def stringFromString : CtorFn := fun obj => .ok obj

/-- The shared numeric-to-text constructor of String. -/
def stringNumericCtor : CtorFn := fun obj => .ok (.str obj.value.render)

/-- Generic association-list lookup keyed by strings (the kernel keys its
registries by class name). -/
def lookupStr {α : Type} : List (String × α) → String → Option α
  | [], _ => none
  | (k, v) :: rest, key => if k = key then some v else lookupStr rest key

/-- The ConstructorMap of every class, exactly as registered in
build/literals.go: Nil, Date and DateTime register none; the maps of the
carriers that are not in src (typeC, generic, iterableC, errorC) are
modelled empty. -/
def Class.constructors : Class → List (String × CtorFn)
  | .nilC => []
  | .boolean => [("Boolean", booleanFromBoolean)]
  | .string =>
      [("String", stringFromString),
       ("Number", stringNumericCtor),
       ("Double", stringNumericCtor),
       ("Integer", stringNumericCtor),
       ("Float", stringNumericCtor),
       ("Boolean", stringNumericCtor)]
  | .number =>
      [("Number", numberFromNumber),
       ("Double", numberFromDouble),
       ("Integer", numberFromInteger),
       ("Float", numberFromFloat)]
  | .double =>
      [("Number", doubleNumericCtor),
       ("Double", doubleNumericCtor),
       ("Integer", doubleNumericCtor),
       ("Float", doubleNumericCtor)]
  | .float =>
      [("Number", floatFromNumber),
       ("Double", floatFromDouble),
       ("Integer", floatFromInteger),
       ("Float", floatFromFloat)]
  | .integer =>
      [("Number", integerFromNumber),
       ("Double", integerFromDouble),
       ("Integer", integerFromInteger),
       ("Float", integerFromFloat)]
  | .date => []
  | .datetime => []
  | .typeC _ => []
  | .generic => []
  | .iterableC _ => []
  | .errorC => []

/-- Modelled from the spec: Construct(target, v) looks up the constructor
the target class registers for the class of v and applies it; a missing
entry is the coercion error. -/
def Construct (target : Class) (v : ValueObject) : Except Fault ValueObject :=
  match lookupStr target.constructors v.cls.className with
  | some f => f v
  | none =>
      .error (.genericError
        ("cannot construct " ++ target.className ++ " from " ++ v.cls.className))

/-- Modelled from the spec: the static form of Construct - succeeds iff
the same constructor lookup would succeed. -/
def ShouldConstruct (target source : Class) : Except Fault Unit :=
  match lookupStr target.constructors source.className with
  | some _ => .ok ()
  | none =>
      .error (.genericError
        ("cannot construct " ++ target.className ++ " from " ++ source.className))

abbrev OpFn := ValueObject → ValueObject → Except Fault ValueObject

/-- numComparePredicate of build/literals.go: coerce both operands
through the Number constructor registered for Number, then compare the
float64 values and return a Boolean. -/
def numComparePredicate (cb : ℚ → ℚ → Bool) : OpFn := fun a b => do
  let na ← numberFromNumber a
  let nb ← numberFromNumber b
  match na, nb with
  | .num x, .num y => .ok (.bool (cb x y))
  | _, _ => .error (.goFault ("interface conversion"))

/-- addNumCompareMap: the six comparison rules one numeric class
registers against another. -/
def addNumCompareMap (c : Class) : List ((String × Token) × OpFn) :=
  [((c.className, .EQUALS), numComparePredicate (fun a b => decide (a = b))),
   ((c.className, .NOT_EQUALS), numComparePredicate (fun a b => decide (a ≠ b))),
   ((c.className, .LESS), numComparePredicate (fun a b => decide (a < b))),
   ((c.className, .GREATER), numComparePredicate (fun a b => decide (b < a))),
   ((c.className, .LESS_EQUAL), numComparePredicate (fun a b => decide (a ≤ b))),
   ((c.className, .GREATER_EQUAL), numComparePredicate (fun a b => decide (b ≤ a)))]

/-- numCompareMap: comparison rules against all four numeric classes. -/
def numCompareMap : List ((String × Token) × OpFn) :=
  addNumCompareMap .number ++ addNumCompareMap .double ++
  addNumCompareMap .integer ++ addNumCompareMap .float

/-- numOperatorPredicate of build/literals.go: coerce both operands
through the Number constructor, then hand the float64 values to the
callback. -/
def numOperatorPredicate (cb : ℚ → ℚ → Except Fault ValueObject) : OpFn := fun a b => do
  let na ← numberFromNumber a
  let nb ← numberFromNumber b
  match na, nb with
  | .num x, .num y => cb x y
  | _, _ => .error (.goFault ("interface conversion"))

/-- addNumOperatorMap: the six arithmetic rules one numeric class
registers against another; every result flows through fn, the owning
from-Number constructor of the owning class. -/
def addNumOperatorMap (c : Class) (fn : CtorFn) : List ((String × Token) × OpFn) :=
  [((c.className, .ADD), numOperatorPredicate (fun a b => fn (.num (a + b)))),
   ((c.className, .SUB), numOperatorPredicate (fun a b => fn (.num (a - b)))),
   ((c.className, .MUL), numOperatorPredicate (fun a b => fn (.num (a * b)))),
   ((c.className, .PWR), numOperatorPredicate (fun a b => fn (.num (hostPow a b)))),
   ((c.className, .QUO), numOperatorPredicate (fun a b => fn (.num (hostQuo a b)))),
   ((c.className, .REM), numOperatorPredicate (fun a b => fn (.num (hostMod a b))))]

/-- numOperatorMap: arithmetic rules against all four numeric classes. -/
def numOperatorMap (fn : CtorFn) : List ((String × Token) × OpFn) :=
  addNumOperatorMap .number fn ++ addNumOperatorMap .double fn ++
  addNumOperatorMap .integer fn ++ addNumOperatorMap .float fn

/-- AND over BooleanLiterals (both type assertions of the source rule). -/
def booleanAnd : OpFn := fun a b =>
  match a, b with
  | .bool x, .bool y => .ok (.bool (x && y))
  | _, _ => .error (.goFault ("interface conversion"))

/-- OR over BooleanLiterals. -/
def booleanOr : OpFn := fun a b =>
  match a, b with
  | .bool x, .bool y => .ok (.bool (x || y))
  | _, _ => .error (.goFault ("interface conversion"))

/-- OperatorRules of each class: each numeric class feeds results through
its own from-Number constructor (OperatorRules methods of
build/literals.go); other classes register none. -/
def Class.operatorRules : Class → List ((String × Token) × OpFn)
  | .number => numOperatorMap numberFromNumber
  | .double => numOperatorMap doubleNumericCtor
  | .float => numOperatorMap floatFromNumber
  | .integer => numOperatorMap integerFromNumber
  | _ => []

/-- ComparableRules of each class (ComparableRules methods of
build/literals.go): Boolean registers AND and OR against Boolean; the
numeric classes share numCompareMap; other classes register none. -/
def Class.comparatorRules : Class → List ((String × Token) × OpFn)
  | .boolean => [(("Boolean", .AND), booleanAnd), (("Boolean", .OR), booleanOr)]
  | .number => numCompareMap
  | .double => numCompareMap
  | .float => numCompareMap
  | .integer => numCompareMap
  | _ => []

/-- A class is an OperableClass when it implements OperatorRules. -/
def Class.isOperable : Class → Bool
  | .number => true
  | .double => true
  | .float => true
  | .integer => true
  | _ => false

/-- A class is a ComparableClass when it implements ComparableRules. -/
def Class.isComparable : Class → Bool
  | .boolean => true
  | .number => true
  | .double => true
  | .float => true
  | .integer => true
  | _ => false

/-- A class is an ObjectClass when it implements Fields. -/
def Class.isObjectClass : Class → Bool
  | .typeC _ => true
  | _ => false

/-- Fields of an ObjectClass. -/
def Class.fields : Class → List (String × Class)
  | .typeC fs => fs
  | _ => []

/-- Rule lookup keyed by the pair of other-class name and token. -/
def lookupRule : List ((String × Token) × OpFn) → String → Token → Option OpFn
  | [], _, _ => none
  | ((k, t), f) :: rest, key, tok =>
      if k = key ∧ t = tok then some f else lookupRule rest key tok

/-- Modelled from the spec: Operate requires the left class to carry
rules and looks up the pair of the right operand class and the token,
first among the operator rules, then among the comparator rules. -/
def Operate (op : Token) (a b : ValueObject) : Except Fault ValueObject :=
  match lookupRule a.cls.operatorRules b.cls.className op with
  | some f => f a b
  | none =>
      match lookupRule a.cls.comparatorRules b.cls.className op with
      | some f => f a b
      | none =>
          .error (.genericError
            ("operator not supported between " ++ a.cls.className ++
             " and " ++ b.cls.className))

/-- Modelled from the spec: the static twin of Operate over classes. -/
def ShouldOperate (op : Token) (a b : Class) : Except Fault Unit :=
  match lookupRule a.operatorRules b.className op with
  | some _ => .ok ()
  | none =>
      match lookupRule a.comparatorRules b.className op with
      | some _ => .ok ()
      | none =>
          .error (.genericError
            ("operator not supported between " ++ a.className ++
             " and " ++ b.className))

/-- getEffectOperator of the node code: maps a compound assignment token
to its arithmetic operator; unlisted tokens yield the zero token value. -/
def getEffectOperator : Token → Token
  | .ADD_ASSIGN => .ADD
  | .INC => .ADD
  | .SUB_ASSIGN => .SUB
  | .DEC => .SUB
  | .MUL_ASSIGN => .MUL
  | .PWR_ASSIGN => .PWR
  | .QUO_ASSIGN => .QUO
  | .REM_ASSIGN => .REM
  | _ => .ILLEGAL

/-- Modelled from the spec: expression nodes at the granularity the claims
need - literal values and identifier references (general expression
resolution is outside src; the engine only calls into it through
ResolveValueObject / ValidateExpression). -/
inductive Expression where
  | lit (v : ValueObject)
  | ident (name : String)

/-- A dotted selector; the parser guarantees at least one member, so the
first member is stored apart from the rest. -/
structure Selector where
  head : String
  tail : List String

/-- AssignmentExpression node: selector target, assignment operator,
right-hand expression. -/
structure AssignmentExpression where
  name : Selector
  operator : Token
  init : Expression

/-- DeclarationStatement node. -/
structure DeclarationStatement where
  name : String
  init : Expression

/-- Modelled from the spec: a type expression, resolved to a class by
ResolveTypeExpression. -/
inductive TypeExpression where
  | cls (c : Class)

/-- Update clause of a ForCondition; the node code switches on the
dynamic type and ignores anything else, modelled by the noneU case. -/
inductive ForUpdate where
  | noneU
  | exprU (e : Expression)
  | assignU (a : AssignmentExpression)

/-- The two shapes of a for condition. -/
inductive ForCond where
  | forCondition (first : Option DeclarationStatement) (condition : Expression) (update : ForUpdate)
  | rangeCondition (index : String) (value : String) (target : Expression)

/-- GuardStatement node. -/
structure GuardStatement where
  init : Expression

mutual

inductive Block where
  | mk (statements : List BlockStatement)

inductive BlockStatement where
  | mk (stmtInit : StatementInit)

inductive StatementInit where
  | expr (e : Expression)
  | decl (d : DeclarationStatement)
  | assign (a : AssignmentExpression)
  | ifS (i : IfStatement)
  | whileS (w : WhileStatement)
  | forS (f : ForStatement)
  | continueS
  | breakS
  | switchS (s : SwitchBlock)
  | guardS (g : GuardStatement)
  | returnS (e : Expression)
  | throwS (e : Expression)

inductive IfStatement where
  | mk (condition : Expression) (body : Block) (alternate : Alternate)

/-- Alternate of an if statement: absent, a chained else-if, or an else
block (the node code switches on the dynamic type of the field). -/
inductive Alternate where
  | noneAlt
  | elseifA (i : IfStatement)
  | blockA (b : Block)

inductive WhileStatement where
  | mk (condition : Expression) (body : Block)

inductive ForStatement where
  | mk (condition : ForCond) (body : Block)

inductive SwitchBlock where
  | mk (target : Expression) (statements : List SwitchCase)

inductive SwitchCase where
  | mk (isDefault : Bool) (condition : Option Expression) (body : Block)

end

def Block.statements : Block → List BlockStatement
  | .mk s => s

def BlockStatement.stmtInit : BlockStatement → StatementInit
  | .mk i => i

def IfStatement.condition : IfStatement → Expression
  | .mk c _ _ => c

def IfStatement.body : IfStatement → Block
  | .mk _ b _ => b

def IfStatement.alternate : IfStatement → Alternate
  | .mk _ _ a => a

def WhileStatement.body : WhileStatement → Block
  | .mk _ b => b

def ForStatement.body : ForStatement → Block
  | .mk _ b => b

def SwitchCase.isDefault : SwitchCase → Bool
  | .mk d _ _ => d

/-- One entry of an ArgumentList: a positional ArgumentItem with a type
expression, or a destructured ArgumentObject introducing each inner field
as its own local. -/
inductive ArgumentItem where
  | item (key : String) (first : TypeExpression)
  | obj (items : List (String × TypeExpression))

/-- FunctionBlock node; argItems models node.Arguments.Items, which the
node code compares against nil before resolving. -/
structure FunctionBlock where
  argItems : Option (List ArgumentItem)
  returnType : Option TypeExpression
  body : Block

mutual

/-- Modelled from the spec: the Object capability carrier - a Class, a
ValueObject, or a Function (which implements Object and Method but not
the full ValueObject interface in src). -/
inductive Object where
  | cls (c : Class)
  | val (v : ValueObject)
  | fn (f : FunctionV)

/-- Function of the node code: declared argument classes, optional return
class, optional handler (the zero Function value has an empty argument
list, no return class and a nil handler). -/
inductive FunctionV where
  | mk (arguments : List Class) (returns : Option Class) (handler : Option FnHandler)

/-- Deep representation of a handler closure: the closure produced by
ResolveFunctionBlock captures the defining symbol table (both maps), the
argument nodes, the resolved return class and the body; the other cases
are the built-in handlers of build/literals.go. -/
inductive FnHandler where
  | closure (capturedLocals : List (String × Object))
            (capturedImmut : List (String × Object))
            (argItems : Option (List ArgumentItem))
            (returns : Option Class)
            (body : Block)
  | strLower (s : String)
  | strUpper (s : String)
  | dateNow
  | datetimeNow

end

def FunctionV.arguments : FunctionV → List Class
  | .mk a _ _ => a

def FunctionV.returns : FunctionV → Option Class
  | .mk _ r _ => r

def FunctionV.handler : FunctionV → Option FnHandler
  | .mk _ _ h => h

/-- Modelled from the spec: a symbol table is two maps, mutable local
bindings and pinned immutable bindings. -/
structure SymbolTable where
  locals : List (String × Object)
  immut : List (String × Object)

/-- Modelled from the spec: Clone yields an independent child scope. With
persistent association lists the copy is the table itself; threading in
the engine below keeps child writes out of the parent. -/
def SymbolTable.clone (st : SymbolTable) : SymbolTable := st

/-- Map update for a binding list (Go map assignment semantics: replace
the existing key or add it). -/
def setBinding : List (String × Object) → String → Object → List (String × Object)
  | [], k, v => [(k, v)]
  | (k0, v0) :: rest, k, v =>
      if k0 = k then (k0, v) :: rest else (k0, v0) :: setBinding rest k v

/-- Write a local binding. -/
def SymbolTable.setLocal (st : SymbolTable) (k : String) (o : Object) : SymbolTable :=
  { st with locals := setBinding st.locals k o }

/-- StringLiteral.Get of build/literals.go: a Go map holding the lower
and upper methods is indexed by the key; a missing key yields the zero
Function value, which boxed in the Object interface is a non-nil Object.
The Option result models the Object interface with none for Go nil. -/
def stringLiteralGet (s key : String) : Option Object :=
  if key = "lower" then
    some (.fn (.mk [] (some .string) (some (.strLower s))))
  else if key = "upper" then
    some (.fn (.mk [] (some .string) (some (.strUpper s))))
  else
    some (.fn (.mk [] none none))

/-- Get on runtime values: only StringLiteral exposes members; every
Get of every other literal returns nil (build/literals.go). The Iterable and
Error carriers are not in src and are modelled with no members. -/
def ValueObject.get : ValueObject → String → Option Object
  | .str s, key => stringLiteralGet s key
  | _, _ => none

/-- Static Get on classes: Date and DateTime expose the now callable;
every other class returns nil (build/literals.go). -/
def Class.get : Class → String → Option Object
  | .date, key =>
      if key = "now" then some (.fn (.mk [] (some .date) (some .dateNow))) else none
  | .datetime, key =>
      if key = "now" then some (.fn (.mk [] (some .datetime) (some .datetimeNow))) else none
  | _, _ => none

/-- Set on the kernel literals: NilLiteral and BooleanLiteral report an
error; every other literal accepts the write and ignores it
(build/literals.go returns nil without storing anything). -/
def ValueObject.set : ValueObject → String → ValueObject → Except Fault Unit
  | .nilV, key, _ =>
      .error (.genericError ("cannot set property " ++ key ++ " of <nil>"))
  | .bool _, key, _ =>
      .error (.genericError ("cannot set property " ++ key ++ " of Boolean"))
  | _, _, _ => .ok ()

/-- Modelled from the spec: one step of member access during selector
resolution - Fields first on an ObjectClass, then static Get; member Get
on a ValueObject; a Function has no members. -/
def Object.getMember : Object → String → Option Object
  | .val v, key => v.get key
  | .cls c, key =>
      match lookupStr c.fields key with
      | some f => some (.cls f)
      | none => c.get key
  | .fn _, _ => none

/-- Modelled from the spec: walk the remaining members of a selector. -/
def selectorWalk : Object → List String → Except Fault Object
  | cur, [] => .ok cur
  | cur, m :: rest =>
      match cur.getMember m with
      | some next => selectorWalk next rest
      | none => .error (.nodeError ("object has no member " ++ m))

/-- Modelled from the spec: ResolveSelector - resolve the first name
through the local (then immutable) map and follow Get / Fields semantics
for the rest. -/
def resolveSelector (st : SymbolTable) (sel : Selector) : Except Fault Object :=
  match lookupStr st.locals sel.head with
  | some o => selectorWalk o sel.tail
  | none =>
      match lookupStr st.immut sel.head with
      | some o => selectorWalk o sel.tail
      | none => .error (.nodeError ("unknown selector " ++ sel.head))

/-- Modelled from the spec: ResolveValueObject at the claim-level
granularity - a literal evaluates to itself, an identifier to its
ValueObject binding. -/
def resolveValueObject (st : SymbolTable) : Expression → Except Fault ValueObject
  | .lit v => .ok v
  | .ident n =>
      match lookupStr st.locals n with
      | some (.val v) => .ok v
      | some _ => .error (.nodeError (n ++ " is not a value"))
      | none =>
          match lookupStr st.immut n with
          | some (.val v) => .ok v
          | some _ => .error (.nodeError (n ++ " is not a value"))
          | none => .error (.nodeError ("unknown identifier " ++ n))

/-- Modelled from the spec: ValidateExpression - the class of a literal,
the Class binding of an identifier (or the class of a seeded value
binding). -/
def validateExpression (st : SymbolTable) : Expression → Except Fault Class
  | .lit v => .ok v.cls
  | .ident n =>
      match lookupStr st.locals n with
      | some (.cls c) => .ok c
      | some (.val v) => .ok v.cls
      | some (.fn _) => .error (.nodeError (n ++ " is not a class"))
      | none =>
          match lookupStr st.immut n with
          | some (.cls c) => .ok c
          | some (.val v) => .ok v.cls
          | some (.fn _) => .error (.nodeError (n ++ " is not a class"))
          | none => .error (.nodeError ("unknown identifier " ++ n))

/-- Modelled from the spec: ResolveTypeExpression resolves a type
expression to its class. -/
def resolveTypeExpression : TypeExpression → Except Fault Class
  | .cls c => .ok c

/-- ResolveDeclarationStatement of the node code: reject a name pinned in
the immutable map or already declared; then bind the resolved value (when
evaluating) or the validated class (when validating). -/
def resolveDeclarationStatement (st : SymbolTable) (d : DeclarationStatement)
    (shouldEvaluate : Bool) : Except Fault SymbolTable :=
  if (lookupStr st.immut d.name).isSome then
    .error (.nodeError ("cannot reassign immutable variable " ++ d.name))
  else if (lookupStr st.locals d.name).isSome then
    .error (.nodeError ("cannot redeclare variable " ++ d.name))
  else if shouldEvaluate then do
    let obj ← resolveValueObject st d.init
    .ok (st.setLocal d.name (.val obj))
  else do
    let c ← validateExpression st d.init
    .ok (st.setLocal d.name (.cls c))

/-- The write-back walk of ResolveAssignmentExpression (the inner eval
closure): on a ValueObject carrier, a single remaining member is written
with Set; otherwise the walk descends through Get on the first remaining
member. With no members left the source still indexes members at zero, an
index-out-of-range runtime fault. Non-value carriers (nil, a Class, a
Function) report the assignment error. -/
def assignWriteBack (newObject : ValueObject) :
    Option Object → List String → Except Fault Unit
  | some (.val valueObj), members =>
      match members with
      | [m] => valueObj.set m newObject
      | [] => .error (.goFault ("index out of range"))
      | m :: rest => assignWriteBack newObject (valueObj.get m) rest
  | _, _ => .error (.nodeError ("cannot assign to non-value object"))

/-- ResolveAssignmentExpression of the node code: reject an immutable
first member; remember the parent binding; resolve the full selector; on
a ValueObject, evaluate the right side, coerce with Construct for plain
assignment or combine with Operate for compound operators; then walk the
write back and rebind the first member to the parent object. -/
def resolveAssignmentExpression (st : SymbolTable) (expr : AssignmentExpression) :
    Except Fault SymbolTable :=
  if (lookupStr st.immut expr.name.head).isSome then
    .error (.nodeError ("cannot reassign immutable variable " ++ expr.name.head))
  else
    let parentObject := lookupStr st.locals expr.name.head
    Except.bind (resolveSelector st expr.name) fun originalObject =>
    match originalObject with
    | .val object => do
        let operand ← resolveValueObject st expr.init
        let newObject ←
          if expr.operator = Token.ASSIGN then
            Construct object.cls operand
          else
            faultToNode (Operate (getEffectOperator expr.operator) object operand)
        let _ ← assignWriteBack newObject parentObject expr.name.tail
        match parentObject with
        | some p => .ok (st.setLocal expr.name.head p)
        | none => .error (.nodeError ("cannot assign to non-value object"))
    | _ => .error (.nodeError ("cannot assign to non-value object"))

/-- The member walk of ValidateAssignmentExpression: an ObjectClass is
searched through Fields then static Get; a ValueObject through Get; any
other carrier falls to the default branch, which calls Get on it (a nil
carrier is a nil dereference fault, a Function has no members). -/
def validateAssignWalk : Option Object → List String → Except Fault (Option Object)
  | cur, [] => .ok cur
  | cur, m :: rest =>
      match cur with
      | some (.cls c) =>
          if c.isObjectClass then
            match lookupStr c.fields m with
            | some f => validateAssignWalk (some (.cls f)) rest
            | none =>
                match c.get m with
                | some o => validateAssignWalk (some o) rest
                | none =>
                    .error (.nodeError (c.className ++ " does not have field " ++ m))
          else
            match c.get m with
            | some o => validateAssignWalk (some o) rest
            | none => .error (.nodeError ("object has no member " ++ m))
      | some (.val v) =>
          match v.get m with
          | some o => validateAssignWalk (some o) rest
          | none =>
              .error (.nodeError (v.cls.className ++ " has no member " ++ m))
      | some (.fn _) => .error (.nodeError ("object has no member " ++ m))
      | none => .error (.goFault ("nil pointer dereference"))

/-- ValidateAssignmentExpression of the node code: reject an immutable
first member, walk the members to a carrier, and on a Class carrier check
the right side statically. For the plain assignment operator the source
passes the operand class as the construction TARGET and the current class
as the source - ShouldConstruct(operand, class) - the reverse of the
runtime coercion Construct(object.Class(), operand). Compound operators
check ShouldOperate with the current class on the left. No binding is
written. -/
def validateAssignmentExpression (st : SymbolTable) (expr : AssignmentExpression) :
    Except Fault Unit :=
  if (lookupStr st.immut expr.name.head).isSome then
    .error (.nodeError ("cannot reassign immutable variable " ++ expr.name.head))
  else
    Except.bind (validateAssignWalk (lookupStr st.locals expr.name.head) expr.name.tail)
    fun current =>
    match current with
    | some (.cls c) => do
        let operand ← validateExpression st expr.init
        if expr.operator = Token.ASSIGN then
          faultToNode (ShouldConstruct operand c)
        else
          faultToNode (ShouldOperate (getEffectOperator expr.operator) c operand)
    | _ => .error (.nodeError ("cannot assign to non-value object"))

/-- Destructured argument resolution: the class of each inner field is bound
as its own local and collected into the structural Type. -/
def resolveArgumentObject (st : SymbolTable) :
    List (String × TypeExpression) → Except Fault (SymbolTable × List (String × Class))
  | [] => .ok (st, [])
  | (key, te) :: rest => do
      let c ← resolveTypeExpression te
      let (st2, fields) ← resolveArgumentObject (st.setLocal key (.cls c)) rest
      .ok (st2, (key, c) :: fields)

/-- ResolveArgumentList of the node code: positional items bind their key
to the resolved class; destructured items build a structural Type and
bind each inner field. -/
def resolveArgumentItems (st : SymbolTable) :
    List ArgumentItem → Except Fault (SymbolTable × List Class)
  | [] => .ok (st, [])
  | .item key te :: rest => do
      let c ← resolveTypeExpression te
      let (st2, cs) ← resolveArgumentItems (st.setLocal key (.cls c)) rest
      .ok (st2, c :: cs)
  | .obj items :: rest => do
      let (st2, fields) ← resolveArgumentObject st items
      let (st3, cs) ← resolveArgumentItems st2 rest
      .ok (st3, Class.typeC fields :: cs)

/-- Destructured argument application: each named field is read off the
supplied object with Get and bound; a missing property is the node
error. -/
def applyArgumentObject (st : SymbolTable) (arg : ValueObject) :
    List (String × TypeExpression) → Except Fault SymbolTable
  | [] => .ok st
  | (key, _) :: rest =>
      match arg.get key with
      | some p => applyArgumentObject (st.setLocal key p) arg rest
      | none => .error (.nodeError ("object does not have property " ++ key))

/-- ApplyArgumentList of the node code: bind each positional item to the
matching actual, destructure object items; the source indexes the actuals
by position, so missing actuals are an index fault. -/
def applyArgumentItems (st : SymbolTable) :
    List ArgumentItem → List ValueObject → Except Fault SymbolTable
  | [], _ => .ok st
  | .item key _ :: rest, arg :: args =>
      applyArgumentItems (st.setLocal key (.val arg)) rest args
  | .obj items :: rest, arg :: args => do
      let st2 ← applyArgumentObject st arg items
      applyArgumentItems st2 rest args
  | _ :: _, [] => .error (.goFault ("index out of range"))

/-- ApplyArgumentList over the optional Items slice. -/
def applyArgumentList (st : SymbolTable) (argItems : Option (List ArgumentItem))
    (args : List ValueObject) : Except Fault SymbolTable :=
  match argItems with
  | some items => applyArgumentItems st items args
  | none => .ok st

/-- Per-argument coercion of ResolveMethodArguments: every argument is
coerced with Construct to its declared class except a GenericObject
declaration. -/
def constructArguments : List Class → List ValueObject → Except Fault (List ValueObject)
  | [], [] => .ok []
  | c :: cs, a :: more => do
      let a2 ←
        match c with
        | .generic => .ok a
        | _ => Construct c a
      let rest ← constructArguments cs more
      .ok (a2 :: rest)
  | _, _ => .error (.genericError ("argument count mismatch"))

/-- ResolveMethodArguments of the node code: arity check, then
per-argument coercion. -/
def resolveMethodArguments (f : FunctionV) (args : List ValueObject) :
    Except Fault (List ValueObject) :=
  if args.length ≠ f.arguments.length then
    .error (.genericError
      ("expected " ++ toString f.arguments.length ++ " arguments, got " ++
       toString args.length))
  else constructArguments f.arguments args

/-- Per-argument static coercion of ValidateMethodArguments. -/
def shouldConstructArguments : List Class → List Class → Except Fault Unit
  | [], [] => .ok ()
  | c :: cs, a :: more => do
      let _ ←
        match c with
        | .generic => .ok ()
        | _ => ShouldConstruct c a
      shouldConstructArguments cs more
  | _, _ => .error (.genericError ("argument count mismatch"))

/-- ValidateMethodArguments of the node code. -/
def validateMethodArguments (f : FunctionV) (args : List Class) : Except Fault Unit :=
  if args.length ≠ f.arguments.length then
    .error (.genericError
      ("expected " ++ toString f.arguments.length ++ " arguments, got " ++
       toString args.length))
  else shouldConstructArguments f.arguments args

/-- guardStatementHandler of the node code: the receiver must be pinned
as self in the immutable map, be a ValueObject, and expose a guard member
that is a Function; every other shape is the same node error. -/
def guardStatementHandler (st : SymbolTable) : Except Fault (ValueObject × FunctionV) :=
  match lookupStr st.immut ("self") with
  | some (.val protoObject) =>
      match protoObject.get ("guard") with
      | some (.fn f) => .ok (protoObject, f)
      | _ => .error (.nodeError ("function has no guard directive"))
  | _ => .error (.nodeError ("function has no guard directive"))

/-- ValidateGuardStatement of the node code. -/
def validateGuardStatement (st : SymbolTable) (g : GuardStatement) : Except Fault Unit := do
  let (_, guardFn) ← guardStatementHandler st
  let c ← validateExpression st g.init
  faultToNode (validateMethodArguments guardFn [c])

/-- ValidateSwitchBlock case walk: at most one default case; each
non-default condition class must have an EQUALS comparator registered
against the target class. Case bodies are not validated here, exactly as
in the source. -/
def validateSwitchCases (st : SymbolTable) (target : Class) (hasDefault : Bool) :
    List SwitchCase → Except Fault Unit
  | [] => .ok ()
  | .mk isDef condE _ :: rest =>
      if isDef then
        if hasDefault then
          .error (.nodeError ("switch statement can only have one default block"))
        else validateSwitchCases st target true rest
      else do
        let ce ←
          match condE with
          | some e => .ok e
          | none => .error (.goFault ("nil pointer dereference"))
        let caseCondition ← validateExpression st ce
        match lookupRule target.comparatorRules caseCondition.className .EQUALS with
        | some _ => validateSwitchCases st target hasDefault rest
        | none =>
            .error (.nodeError
              ("switch statement case condition must be comparable to switch target"))

/-- Outcome of running the statements of a loop body once: fell through,
hit a direct continue, hit a direct break, or produced a return value. -/
inductive LoopSignal where
  | completed
  | continued
  | broke
  | returned (v : ValueObject)

/-- The engine as a bundle of the mutually recursive traversal functions
of the node code. The model interpreter is the fuel-indexed fixpoint
below: each layer calls the previous layer wherever the source recurses,
so the definitions compute and a fuel-exhausted call reports noFuel. -/
structure Engine where
  resolveBlock : SymbolTable → Block → Except Fault (SymbolTable × Option ValueObject)
  resolveBlockStatement : SymbolTable → BlockStatement → Except Fault (SymbolTable × Option ValueObject)
  resolveIfStatement : SymbolTable → IfStatement → Except Fault (SymbolTable × Option ValueObject)
  resolveWhileStatement : SymbolTable → WhileStatement → Except Fault (SymbolTable × Option ValueObject)
  resolveForStatement : SymbolTable → ForStatement → Except Fault (SymbolTable × Option ValueObject)
  forConditionLoop : SymbolTable → Expression → ForUpdate → List BlockStatement → Except Fault (SymbolTable × Option ValueObject)
  resolveSwitchBlock : SymbolTable → SwitchBlock → Except Fault (SymbolTable × Option ValueObject)
  resolveGuardStatement : SymbolTable → GuardStatement → Except Fault SymbolTable
  functionCall : FunctionV → List ValueObject → Option ValueObject → Except Fault (Option ValueObject)
  callHandler : FnHandler → List ValueObject → Option ValueObject → Except Fault (Option ValueObject)
  validateBlock : SymbolTable → Block → Except Fault SymbolTable
  validateLoopBlock : SymbolTable → Block → Except Fault SymbolTable
  validateBlockStatement : SymbolTable → BlockStatement → Except Fault SymbolTable
  validateIfStatement : SymbolTable → IfStatement → Except Fault SymbolTable
  validateWhileStatement : SymbolTable → WhileStatement → Except Fault SymbolTable
  validateForStatement : SymbolTable → ForStatement → Except Fault SymbolTable
  validateSwitchBlock : SymbolTable → SwitchBlock → Except Fault SymbolTable
  validateBlockReturns : SymbolTable → Block → Class → Except Fault Bool
  validateIfStatementReturns : SymbolTable → IfStatement → Class → Except Fault Bool
  validateWhileStatementReturns : SymbolTable → WhileStatement → Class → Except Fault Bool
  validateForStatementReturns : SymbolTable → ForStatement → Class → Except Fault Bool
  validateSwitchBlockReturns : SymbolTable → SwitchBlock → Class → Except Fault Bool

/-- ResolveBlock statement walk: the first non-nil return value
propagates upward. -/
def resolveBlockGo (E : Engine) (st : SymbolTable) :
    List BlockStatement → Except Fault (SymbolTable × Option ValueObject)
  | [] => .ok (st, none)
  | s :: rest => do
      let (st2, ret) ← E.resolveBlockStatement st s
      match ret with
      | some v => .ok (st2, some v)
      | none => resolveBlockGo E st2 rest

/-- One pass over a loop body: continue and break are honoured only as
direct children; other statements go through ResolveBlockStatement and a
return value stops the loop. -/
def runLoopBody (E : Engine) (st : SymbolTable) :
    List BlockStatement → Except Fault (SymbolTable × LoopSignal)
  | [] => .ok (st, .completed)
  | s :: rest =>
      match s.stmtInit with
      | .continueS => .ok (st, .continued)
      | .breakS => .ok (st, .broke)
      | _ => do
          let (st2, ret) ← E.resolveBlockStatement st s
          match ret with
          | some v => .ok (st2, .returned v)
          | none => runLoopBody E st2 rest

/-- Range iteration of ResolveForStatement: bind the index and the value
names, run the body, honour the loop signals. -/
def rangeLoop (E : Engine) (idx val : String) (stmts : List BlockStatement)
    (st : SymbolTable) (i : ℕ) :
    List ValueObject → Except Fault (SymbolTable × Option ValueObject)
  | [] => .ok (st, none)
  | item :: rest => do
      let st1 := (st.setLocal idx (.val (.int (i : ℤ)))).setLocal val (.val item)
      let (st2, sig) ← runLoopBody E st1 stmts
      match sig with
      | .returned v => .ok (st2, some v)
      | .broke => .ok (st2, none)
      | _ => rangeLoop E idx val stmts st2 (i + 1) rest

/-- First pass of ResolveSwitchBlock: evaluate each non-default case
condition in order, compare with Operate EQUALS, and run the body of a
matching case; the walk continues past a matching case whose body did not
produce a return value, with the resolved flag set. -/
def switchCases (E : Engine) (target : ValueObject) (st : SymbolTable) (resolved : Bool) :
    List SwitchCase → Except Fault (SymbolTable × Bool × Option ValueObject)
  | [] => .ok (st, resolved, none)
  | .mk isDef condE body :: rest =>
      if isDef then switchCases E target st resolved rest
      else do
        let ce ←
          match condE with
          | some e => .ok e
          | none => .error (.goFault ("nil pointer dereference"))
        let caseCondition ← resolveValueObject st ce
        let evaluated ← faultToNode (Operate .EQUALS target caseCondition)
        match evaluated with
        | .bool true => do
            let (st2, ret) ← E.resolveBlock st body
            match ret with
            | some v => .ok (st2, true, some v)
            | none => switchCases E target st2 true rest
        | _ => switchCases E target st resolved rest

/-- Second pass of ResolveSwitchBlock: run the default bodies. -/
def switchDefaults (E : Engine) (st : SymbolTable) :
    List SwitchCase → Except Fault (SymbolTable × Option ValueObject)
  | [] => .ok (st, none)
  | .mk isDef _ body :: rest =>
      if isDef then do
        let (st2, ret) ← E.resolveBlock st body
        match ret with
        | some v => .ok (st2, some v)
        | none => switchDefaults E st2 rest
      else switchDefaults E st rest

/-- ValidateBlock statement walk: continue and break at this level are
the out-of-loop errors. -/
def validateBlockGo (E : Engine) (st : SymbolTable) :
    List BlockStatement → Except Fault SymbolTable
  | [] => .ok st
  | s :: rest =>
      match s.stmtInit with
      | .continueS => .error (.nodeError ("continue statement outside loop"))
      | .breakS => .error (.nodeError ("break statement outside loop"))
      | _ => do
          let st2 ← E.validateBlockStatement st s
          validateBlockGo E st2 rest

/-- ValidateLoopBlock statement walk: every statement goes straight to
ValidateBlockStatement. -/
def validateLoopBlockGo (E : Engine) (st : SymbolTable) :
    List BlockStatement → Except Fault SymbolTable
  | [] => .ok st
  | s :: rest => do
      let st2 ← E.validateBlockStatement st s
      validateLoopBlockGo E st2 rest

/-- ValidateBlockReturns statement walk: return and throw statements are
checked directly; if, while, for and switch statements delegate; any
other statement does not return. The first returning statement makes the
block definitely return. -/
def blockReturnsGo (E : Engine) (st : SymbolTable) (shouldReturn : Class) :
    List BlockStatement → Except Fault Bool
  | [] => .ok false
  | s :: rest => do
      let doesReturn ←
        match s.stmtInit with
        | .returnS e => do
            let returnClass ← validateExpression st e
            let _ ← faultToNode (ShouldConstruct shouldReturn returnClass)
            (.ok true : Except Fault Bool)
        | .throwS e => do
            let c ← validateExpression st e
            match c with
            | .errorC => (.ok true : Except Fault Bool)
            | _ => .error (.nodeError ("throw type " ++ c.className ++ " is not an error"))
        | .ifS i => E.validateIfStatementReturns st i shouldReturn
        | .whileS w => E.validateWhileStatementReturns st w shouldReturn
        | .forS f => E.validateForStatementReturns st f shouldReturn
        | .switchS sw => E.validateSwitchBlockReturns st sw shouldReturn
        | _ => (.ok false : Except Fault Bool)
      if doesReturn then .ok true else blockReturnsGo E st shouldReturn rest

/-- First pass of ValidateSwitchBlockReturns: every non-default case body
must definitely return. -/
def switchReturnsAll (E : Engine) (st : SymbolTable) (shouldReturn : Class) :
    List SwitchCase → Except Fault Bool
  | [] => .ok true
  | .mk isDef _ body :: rest =>
      if isDef then switchReturnsAll E st shouldReturn rest
      else do
        let p ← E.validateBlockReturns st body shouldReturn
        if p then switchReturnsAll E st shouldReturn rest else .ok false

/-- Second pass of ValidateSwitchBlockReturns: the result is the default
coverage of the default case body, and false with no default case. -/
def switchReturnsDefault (E : Engine) (st : SymbolTable) (shouldReturn : Class) :
    List SwitchCase → Except Fault Bool
  | [] => .ok false
  | .mk isDef _ body :: rest =>
      if isDef then E.validateBlockReturns st body shouldReturn
      else switchReturnsDefault E st shouldReturn rest

/-- The fuel-exhausted engine. -/
def engineBot : Engine where
  resolveBlock := fun _ _ => .error .noFuel
  resolveBlockStatement := fun _ _ => .error .noFuel
  resolveIfStatement := fun _ _ => .error .noFuel
  resolveWhileStatement := fun _ _ => .error .noFuel
  resolveForStatement := fun _ _ => .error .noFuel
  forConditionLoop := fun _ _ _ _ => .error .noFuel
  resolveSwitchBlock := fun _ _ => .error .noFuel
  resolveGuardStatement := fun _ _ => .error .noFuel
  functionCall := fun _ _ _ => .error .noFuel
  callHandler := fun _ _ _ => .error .noFuel
  validateBlock := fun _ _ => .error .noFuel
  validateLoopBlock := fun _ _ => .error .noFuel
  validateBlockStatement := fun _ _ => .error .noFuel
  validateIfStatement := fun _ _ => .error .noFuel
  validateWhileStatement := fun _ _ => .error .noFuel
  validateForStatement := fun _ _ => .error .noFuel
  validateSwitchBlock := fun _ _ => .error .noFuel
  validateBlockReturns := fun _ _ _ => .error .noFuel
  validateIfStatementReturns := fun _ _ _ => .error .noFuel
  validateWhileStatementReturns := fun _ _ _ => .error .noFuel
  validateForStatementReturns := fun _ _ _ => .error .noFuel
  validateSwitchBlockReturns := fun _ _ _ => .error .noFuel

/-- One layer of the engine: each traversal function of the node code,
with every recursive call delegated to the previous layer. -/
def engineStep (prev : Engine) : Engine where
  resolveBlock := fun st b => resolveBlockGo prev st b.statements
  resolveBlockStatement := fun st stmt =>
    match stmt.stmtInit with
    | .expr e => do
        let _ ← resolveValueObject st e
        .ok (st, none)
    | .decl d => do
        let st2 ← resolveDeclarationStatement st d true
        .ok (st2, none)
    | .assign a => do
        let st2 ← resolveAssignmentExpression st a
        .ok (st2, none)
    | .ifS i => prev.resolveIfStatement st i
    | .whileS w => prev.resolveWhileStatement st w
    | .forS f => prev.resolveForStatement st f
    | .continueS => .error (.nodeError ("unknown block statement type"))
    | .breakS => .error (.nodeError ("unknown block statement type"))
    | .switchS s => prev.resolveSwitchBlock st s
    | .guardS g => do
        let st2 ← prev.resolveGuardStatement st g
        .ok (st2, none)
    | .returnS e => do
        let v ← resolveValueObject st e
        .ok (st, some v)
    | .throwS e => do
        let v ← resolveValueObject st e
        match v with
        | .errV m => .error (.thrown (.errV m))
        | _ => .error (.nodeError ("throw statement must be an error"))
  resolveIfStatement := fun st i =>
    match i with
    | .mk cond body alt => do
        let c ← resolveValueObject st cond
        match c with
        | .bool true => prev.resolveBlock st body
        | .bool false =>
            match alt with
            | .elseifA a => prev.resolveIfStatement st a
            | .blockA b => prev.resolveBlock st b
            | .noneAlt => .ok (st, none)
        | _ => .error (.nodeError ("if condition must be a boolean"))
  resolveWhileStatement := fun st w =>
    match w with
    | .mk cond body => do
        let c ← resolveValueObject st cond
        match c with
        | .bool false => .ok (st, none)
        | .bool true => do
            let (st2, sig) ← runLoopBody prev st body.statements
            match sig with
            | .returned v => .ok (st2, some v)
            | .broke => .ok (st2, none)
            | _ => prev.resolveWhileStatement st2 w
        | _ => .error (.nodeError ("while condition must be a boolean"))
  resolveForStatement := fun st f =>
    match f with
    | .mk cond body =>
        match cond with
        | .forCondition firstD condE upd => do
            let scope2 ←
              match firstD with
              | some d => resolveDeclarationStatement st.clone d true
              | none => .ok st.clone
            let (_, ret) ← prev.forConditionLoop scope2 condE upd body.statements
            .ok (st, ret)
        | .rangeCondition idx val tgt => do
            let targetObject ← resolveValueObject st tgt
            match targetObject with
            | .iterable _ items => do
                let (_, ret) ← rangeLoop prev idx val body.statements st.clone 0 items
                .ok (st, ret)
            | _ => .error (.notIterableError ("not iterable"))
  forConditionLoop := fun st condE upd stmts => do
    let c ← resolveValueObject st condE
    match c with
    | .bool false => .ok (st, none)
    | .bool true => do
        let (st2, sig) ← runLoopBody prev st stmts
        match sig with
        | .returned v => .ok (st2, some v)
        | .broke => .ok (st2, none)
        | .continued => prev.forConditionLoop st2 condE upd stmts
        | .completed => do
            let st3 ←
              match upd with
              | .noneU => .ok st2
              | .exprU e => do
                  let _ ← resolveValueObject st2 e
                  .ok st2
              | .assignU a => resolveAssignmentExpression st2 a
            prev.forConditionLoop st3 condE upd stmts
    | _ => .error (.nodeError ("for condition must be a boolean"))
  resolveSwitchBlock := fun st sb =>
    match sb with
    | .mk tgtE cases => do
        let target ← resolveValueObject st tgtE
        if target.cls.isOperable then do
          let (st2, resolved, ret) ← switchCases prev target st false cases
          match ret with
          | some v => .ok (st2, some v)
          | none =>
              if resolved then .ok (st2, none)
              else switchDefaults prev st2 cases
        else .error (.inoperableSwitchTarget ("switch target class is not comparable"))
  resolveGuardStatement := fun st g => do
    let (protoObject, guardFn) ← guardStatementHandler st
    let obj ← resolveValueObject st g.init
    let _ ← prev.functionCall guardFn [obj] (some protoObject)
    .ok st
  functionCall := fun f args proto =>
    if args.length ≠ f.arguments.length then
      .error (.genericError
        ("expected " ++ toString f.arguments.length ++ " arguments, got " ++
         toString args.length))
    else do
      let args2 ← resolveMethodArguments f args
      match f.handler with
      | some h => prev.callHandler h args2 proto
      | none => .error (.goFault ("nil function handler"))
  callHandler := fun h args proto =>
    match h with
    | .closure locs imms argItems returns body => do
        let execTable ← applyArgumentList (SymbolTable.mk locs imms).clone argItems args
        let execTable :=
          match proto with
          | some p => { execTable with immut := setBinding execTable.immut ("self") (.val p) }
          | none => execTable
        let (_, obj) ← prev.resolveBlock execTable body
        match returns with
        | some c =>
            match obj with
            | some v => do
                let r ← Construct c v
                .ok (some r)
            | none => .error (.goFault ("nil pointer dereference"))
        | none => .ok none
    | .strLower s => .ok (some (.str s.toLower))
    | .strUpper s => .ok (some (.str s.toUpper))
    | .dateNow => .ok (some .date)
    | .datetimeNow => .ok (some .datetime)
  validateBlock := fun st b => validateBlockGo prev st b.statements
  validateLoopBlock := fun st b => validateLoopBlockGo prev st b.statements
  validateBlockStatement := fun st stmt =>
    match stmt.stmtInit with
    | .expr e => do
        let _ ← validateExpression st e
        .ok st
    | .decl d => resolveDeclarationStatement st d false
    | .assign a => do
        let _ ← validateAssignmentExpression st a
        .ok st
    | .ifS i => prev.validateIfStatement st i
    | .whileS w => prev.validateWhileStatement st w
    | .forS f => prev.validateForStatement st f
    | .continueS => .error (.nodeError ("unknown block statement type"))
    | .breakS => .error (.nodeError ("unknown block statement type"))
    | .switchS s => prev.validateSwitchBlock st s
    | .guardS g => do
        let _ ← validateGuardStatement st g
        .ok st
    | .returnS e => do
        let _ ← validateExpression st e
        .ok st
    | .throwS e => do
        let c ← validateExpression st e
        match c with
        | .errorC => .ok st
        | _ => .error (.nodeError ("throw statement must be an error"))
  validateIfStatement := fun st i =>
    match i with
    | .mk cond body alt => do
        let c ← validateExpression st cond
        match c with
        | .boolean => do
            let st2 ← prev.validateBlock st body
            match alt with
            | .elseifA a => prev.validateIfStatement st2 a
            | .blockA b => prev.validateBlock st2 b
            | .noneAlt => .ok st2
        | _ => .error (.nodeError ("if condition must be a boolean"))
  validateWhileStatement := fun st w =>
    match w with
    | .mk cond body => do
        let c ← validateExpression st cond
        match c with
        | .boolean => prev.validateLoopBlock st body
        | _ => .error (.nodeError ("if condition must be a boolean"))
  validateForStatement := fun st f =>
    match f with
    | .mk cond body =>
        match cond with
        | .forCondition firstD condE upd => do
            let st1 ←
              match firstD with
              | some d => resolveDeclarationStatement st.clone d false
              | none => .ok st.clone
            let c ← validateExpression st1 condE
            match c with
            | .boolean => do
                let _ ←
                  match upd with
                  | .noneU => (.ok () : Except Fault Unit)
                  | .exprU e => do
                      let _ ← validateExpression st1 e
                      (.ok () : Except Fault Unit)
                  | .assignU a => validateAssignmentExpression st1 a
                let _ ← prev.validateLoopBlock st1 body
                .ok st
            | _ => .error (.nodeError ("for statement condition must be a boolean"))
        | .rangeCondition idx val tgt => do
            let targetClass ← validateExpression st.clone tgt
            match targetClass with
            | .iterableC parent => do
                let st1 := ((st.clone.setLocal idx (.val (.int 0))).setLocal val (.cls parent))
                let _ ← prev.validateLoopBlock st1 body
                .ok st
            | _ => .error (.notIterableError ("not iterable"))
  validateSwitchBlock := fun st sb =>
    match sb with
    | .mk tgtE cases => do
        let target ← validateExpression st tgtE
        if target.isComparable then do
          let _ ← validateSwitchCases st target false cases
          .ok st
        else .error (.inoperableSwitchTarget ("switch target class is not comparable"))
  validateBlockReturns := fun st b shouldReturn => blockReturnsGo prev st shouldReturn b.statements
  validateIfStatementReturns := fun st i shouldReturn =>
    match i with
    | .mk _ body alt => do
        let blockPassed ← prev.validateBlockReturns st body shouldReturn
        if blockPassed then
          match alt with
          | .elseifA a => prev.validateIfStatementReturns st a shouldReturn
          | .blockA b => prev.validateBlockReturns st b shouldReturn
          | .noneAlt => .ok false
        else .ok false
  validateWhileStatementReturns := fun st w shouldReturn =>
    prev.validateBlockReturns st w.body shouldReturn
  validateForStatementReturns := fun st f shouldReturn =>
    prev.validateBlockReturns st f.body shouldReturn
  validateSwitchBlockReturns := fun st sb shouldReturn =>
    match sb with
    | .mk _ cases => do
        let allOk ← switchReturnsAll prev st shouldReturn cases
        if allOk then switchReturnsDefault prev st shouldReturn cases
        else .ok false

/-- The fuel-indexed engine. -/
def engine : ℕ → Engine
  | 0 => engineBot
  | n + 1 => engineStep (engine n)

def resolveBlock (fuel : ℕ) (st : SymbolTable) (b : Block) :
    Except Fault (SymbolTable × Option ValueObject) :=
  (engine fuel).resolveBlock st b

def resolveBlockStatement (fuel : ℕ) (st : SymbolTable) (s : BlockStatement) :
    Except Fault (SymbolTable × Option ValueObject) :=
  (engine fuel).resolveBlockStatement st s

def resolveIfStatement (fuel : ℕ) (st : SymbolTable) (i : IfStatement) :
    Except Fault (SymbolTable × Option ValueObject) :=
  (engine fuel).resolveIfStatement st i

def resolveWhileStatement (fuel : ℕ) (st : SymbolTable) (w : WhileStatement) :
    Except Fault (SymbolTable × Option ValueObject) :=
  (engine fuel).resolveWhileStatement st w

def resolveForStatement (fuel : ℕ) (st : SymbolTable) (f : ForStatement) :
    Except Fault (SymbolTable × Option ValueObject) :=
  (engine fuel).resolveForStatement st f

def resolveSwitchBlock (fuel : ℕ) (st : SymbolTable) (sb : SwitchBlock) :
    Except Fault (SymbolTable × Option ValueObject) :=
  (engine fuel).resolveSwitchBlock st sb

def resolveGuardStatement (fuel : ℕ) (st : SymbolTable) (g : GuardStatement) :
    Except Fault SymbolTable :=
  (engine fuel).resolveGuardStatement st g

/-- Function.Call of the node code at a given fuel. -/
def functionCall (fuel : ℕ) (f : FunctionV) (args : List ValueObject)
    (proto : Option ValueObject) : Except Fault (Option ValueObject) :=
  (engine fuel).functionCall f args proto

def validateBlock (fuel : ℕ) (st : SymbolTable) (b : Block) : Except Fault SymbolTable :=
  (engine fuel).validateBlock st b

def validateLoopBlock (fuel : ℕ) (st : SymbolTable) (b : Block) : Except Fault SymbolTable :=
  (engine fuel).validateLoopBlock st b

def validateBlockStatement (fuel : ℕ) (st : SymbolTable) (s : BlockStatement) :
    Except Fault SymbolTable :=
  (engine fuel).validateBlockStatement st s

def validateIfStatement (fuel : ℕ) (st : SymbolTable) (i : IfStatement) :
    Except Fault SymbolTable :=
  (engine fuel).validateIfStatement st i

def validateBlockReturns (fuel : ℕ) (st : SymbolTable) (b : Block) (shouldReturn : Class) :
    Except Fault Bool :=
  (engine fuel).validateBlockReturns st b shouldReturn

def validateIfStatementReturns (fuel : ℕ) (st : SymbolTable) (i : IfStatement)
    (shouldReturn : Class) : Except Fault Bool :=
  (engine fuel).validateIfStatementReturns st i shouldReturn

/-- ResolveFunctionBlock of the node code: clone the defining scope,
resolve the argument list, pin the receiver, validate the body, resolve
and enforce the declared return type, and produce the Function whose
handler closure captures the defining table and the nodes. -/
def resolveFunctionBlock (fuel : ℕ) (st : SymbolTable) (node : FunctionBlock)
    (proto : Option ValueObject) : Except Fault FunctionV := do
  let (scopeTable, args) ←
    match node.argItems with
    | some items => resolveArgumentItems st.clone items
    | none => .ok (st.clone, ([] : List Class))
  let scopeTable :=
    match proto with
    | some p => { scopeTable with immut := setBinding scopeTable.immut ("self") (.val p) }
    | none => scopeTable
  let scopeTable2 ← (engine fuel).validateBlock scopeTable node.body
  match node.returnType with
  | some te => do
      let returns ← resolveTypeExpression te
      let passes ← (engine fuel).validateBlockReturns scopeTable2 node.body returns
      if passes then
        .ok (.mk args (some returns)
          (some (.closure st.locals st.immut node.argItems (some returns) node.body)))
      else .error (.nodeError ("expected return"))
  | none =>
      .ok (.mk args none
        (some (.closure st.locals st.immut node.argItems none node.body)))

/-- Identity on every kernel value except a Double, which is re-rounded
by the quantising constructor. -/
def requant : ValueObject → ValueObject
  | .double q => .double (quantDouble q)
  | v => v

/-- The four numeric kernel classes carry a numeric runtime value. -/
def ValueObject.isNumeric : ValueObject → Bool
  | .num _ => true
  | .double _ => true
  | .float _ => true
  | .int _ => true
  | _ => false

/-- The widened float64 value the Number constructor produces from a
numeric kernel value (int64 widened, float64 kept). -/
def numericValue : ValueObject → ℚ
  | .num q => q
  | .double q => q
  | .float q => q
  | .int i => (i : ℚ)
  | _ => 0

/-- The from-Number construction of each owning numeric class applied to
a float64 result: Number keeps it, Integer truncates, Float keeps it,
Double quantises. -/
def ownerResult : Class → ℚ → ValueObject
  | .number, q => .num q
  | .integer, q => .int (ratTrunc q)
  | .float, q => .float q
  | .double, q => .double (quantDouble q)
  | _, _ => .nilV

/-- Denotation of the six arithmetic operator callbacks over the widened
operand values. -/
def arithDenote : Token → ℚ → ℚ → ℚ
  | .ADD, a, b => a + b
  | .SUB, a, b => a - b
  | .MUL, a, b => a * b
  | .PWR, a, b => hostPow a b
  | .QUO, a, b => hostQuo a b
  | .REM, a, b => hostMod a b
  | _, _, _ => 0

/-- Denotation of the six comparison callbacks over the widened operand
values. -/
def compareDenote : Token → ℚ → ℚ → Bool
  | .EQUALS, a, b => decide (a = b)
  | .NOT_EQUALS, a, b => decide (a ≠ b)
  | .LESS, a, b => decide (a < b)
  | .GREATER, a, b => decide (b < a)
  | .LESS_EQUAL, a, b => decide (a ≤ b)
  | .GREATER_EQUAL, a, b => decide (b ≤ a)
  | _, _, _ => false

/-- Reduction of a bind on a successful Except, used to push hypotheses
through the do-chains of the engine. -/
@[simp] theorem exceptBind_ok {α β : Type} (a : α) (f : α → Except Fault β) :
    (Except.ok a >>= f) = f a := rfl

/-- Reduction of a bind on a failed Except. -/
@[simp] theorem exceptBind_err {α β : Type} (e : Fault) (f : α → Except Fault β) :
    ((Except.error e : Except Fault α) >>= f) = Except.error e := rfl

/-- C1: the claim states that an assignment whose target selector is a
single name bound to a ValueObject in the local table terminates without
a runtime fault and rebinds that name. The code disagrees: with a single
name the write-back walk still indexes the empty remaining-member slice
at position zero, an index-out-of-range runtime fault, for the plain
assignment operator and for compound operators alike. This theorem
evaluates the code at both failing inputs. -/
theorem claim_C1 :
    resolveAssignmentExpression (SymbolTable.mk [("x", .val (.int 3))] [])
      (AssignmentExpression.mk (Selector.mk ("x") []) .ASSIGN (.lit (.int 5)))
      = .error (.goFault ("index out of range")) ∧
    resolveAssignmentExpression (SymbolTable.mk [("n", .val (.int 4))] [])
      (AssignmentExpression.mk (Selector.mk ("n") []) .ADD_ASSIGN (.lit (.int 1)))
      = .error (.goFault ("index out of range")) :=
  ⟨rfl, rfl⟩

/-- C2 counterexample: the claim states that at most one non-default case
body is executed and that later matching case bodies are not executed.
On a switch over 3 with two cases both guarding 3, the first body
declares x and the second declares y; the final symbol table holds both
bindings, so the second matching body was executed as well. -/
theorem claim_C2_counterexample :
    resolveSwitchBlock 6 (SymbolTable.mk [] [])
      (SwitchBlock.mk (.lit (.int 3))
        [SwitchCase.mk false (some (.lit (.int 3)))
           (Block.mk [BlockStatement.mk (.decl (DeclarationStatement.mk ("x") (.lit (.int 1))))]),
         SwitchCase.mk false (some (.lit (.int 3)))
           (Block.mk [BlockStatement.mk (.decl (DeclarationStatement.mk ("y") (.lit (.int 2))))])])
      = .ok (SymbolTable.mk [("x", .val (.int 1)), ("y", .val (.int 2))] [], none) :=
  rfl

/-- C3: the claim states that ValidateLoopBlock accepts continue and
break as direct children while ValidateBlock rejects them. The second
half holds, but ValidateLoopBlock forwards every statement to
ValidateBlockStatement, whose continue and break cases are commented out
in the source, so they fall to the default unknown-statement error -
contradicting the source comment that the only difference from
ValidateBlock is that continue and break are allowed. This theorem
evaluates both validators on single-statement continue and break
blocks. -/
theorem claim_C3 :
    validateLoopBlock 2 (SymbolTable.mk [] []) (Block.mk [BlockStatement.mk .continueS])
      = .error (.nodeError ("unknown block statement type")) ∧
    validateLoopBlock 2 (SymbolTable.mk [] []) (Block.mk [BlockStatement.mk .breakS])
      = .error (.nodeError ("unknown block statement type")) ∧
    validateBlock 2 (SymbolTable.mk [] []) (Block.mk [BlockStatement.mk .continueS])
      = .error (.nodeError ("continue statement outside loop")) ∧
    validateBlock 2 (SymbolTable.mk [] []) (Block.mk [BlockStatement.mk .breakS])
      = .error (.nodeError ("break statement outside loop")) :=
  ⟨rfl, rfl, rfl, rfl⟩

/-- C4: the claim states that validating a plain assignment succeeds iff
ShouldConstruct succeeds with the current class of the target as the coercion
target and the right-hand class as the source. The code swaps the two
arguments - ShouldConstruct(operand, class) - so validation rejects a
String target assigned an Integer (although ShouldConstruct String
Integer succeeds, first two conjuncts) and accepts a Boolean target
assigned a String (although ShouldConstruct Boolean String fails, last
two conjuncts). -/
theorem claim_C4 :
    ShouldConstruct .string .integer = .ok () ∧
    validateAssignmentExpression (SymbolTable.mk [("x", .cls .string)] [])
      (AssignmentExpression.mk (Selector.mk ("x") []) .ASSIGN (.lit (.int 5)))
      = .error (.nodeError ("cannot construct Integer from String")) ∧
    ShouldConstruct .boolean .string
      = .error (.genericError ("cannot construct Boolean from String")) ∧
    validateAssignmentExpression (SymbolTable.mk [("b", .cls .boolean)] [])
      (AssignmentExpression.mk (Selector.mk ("b") []) .ASSIGN (.lit (.str "t")))
      = .ok () :=
  ⟨rfl, rfl, rfl, rfl⟩

/-- C5: the claim states that Construct(Double, v) succeeds for every
source of class Number, Double, Integer or Float. Double registers a
constructor for Integer (first conjunct), but that constructor asserts
Value() to float64 while IntegerLiteral.Value() returns int64, so the
construction is a failed-type-assertion runtime fault (second conjunct)
instead of the quantised value; a float64-backed source goes through the
ceiling quantiser as the claim describes (third conjunct). -/
theorem claim_C5 :
    ShouldConstruct .double .integer = .ok () ∧
    Construct .double (.int 3) = .error (.goFault ("interface conversion")) ∧
    Construct .double (.num 3) = .ok (.double (quantDouble 3)) :=
  ⟨rfl, rfl, rfl⟩

/-- C6 counterexample: the claim quantifies over all nine kernel classes,
but Nil, Date and DateTime have empty constructor maps, so the round-trip
construction fails for their values. -/
theorem claim_C6_counterexample :
    Construct Class.nilC ValueObject.nilV
      = .error (.genericError ("cannot construct <nil> from <nil>")) ∧
    Construct Class.date ValueObject.date
      = .error (.genericError ("cannot construct Date from Date")) ∧
    Construct Class.datetime ValueObject.datetime
      = .error (.genericError ("cannot construct DateTime from DateTime")) :=
  ⟨rfl, rfl, rfl⟩

/-- C6 (amended): for every primitive value of the six kernel classes
that register a self-constructor - Boolean, String, Number, Integer,
Float, Double - Construct(V.Class(), V) succeeds and returns V, with a
Double re-rounded by the quantising constructor; for Nil, Date and
DateTime the construction fails because their constructor maps are
empty. -/
theorem claim_C6 (v : ValueObject)
    (h : v.cls = .boolean ∨ v.cls = .string ∨ v.cls = .number ∨
         v.cls = .integer ∨ v.cls = .float ∨ v.cls = .double) :
    Construct v.cls v = .ok (requant v) := by
  cases v <;> first
    | rfl
    | simp [ValueObject.cls] at h

/-- C6 witness: the round trip at a concrete Double re-rounds it. -/
theorem claim_C6_witness :
    Construct (ValueObject.double (7 / 2)).cls (ValueObject.double (7 / 2))
      = .ok (requant (.double (7 / 2))) :=
  claim_C6 (.double (7 / 2)) (Or.inr (Or.inr (Or.inr (Or.inr (Or.inr rfl)))))

/-- C9: StringLiteral.Get at any key other than lower and upper returns
the zero-valued Function - a non-nil Object with an empty argument list,
no return class and a nil handler - rather than the absent member nil. -/
theorem claim_C9 (s key : String) (h1 : key ≠ "lower") (h2 : key ≠ "upper") :
    stringLiteralGet s key = some (Object.fn (FunctionV.mk [] none none)) := by
  simp [stringLiteralGet, h1, h2]

/-- C9 witness: a concrete missing key. -/
theorem claim_C9_witness :
    stringLiteralGet ("ab") ("guard") = some (Object.fn (FunctionV.mk [] none none)) :=
  claim_C9 ("ab") ("guard") (by decide) (by decide)

/-- C8: for numeric operands, every registered rule first coerces both
sides through the Number constructor (int64 widened to float64, the
numericValue denotation); an arithmetic token then yields the owning
from-Number construction of the owning left class applied to the float64 result (Integer
truncating, Double quantising), and a comparison token yields a
Boolean of the float64 comparison. -/
theorem claim_C8 (tok : Token) (a b : ValueObject)
    (ha : a.isNumeric = true) (hb : b.isNumeric = true) :
    ((tok = .ADD ∨ tok = .SUB ∨ tok = .MUL ∨ tok = .PWR ∨ tok = .QUO ∨ tok = .REM) →
      Operate tok a b
        = .ok (ownerResult a.cls (arithDenote tok (numericValue a) (numericValue b)))) ∧
    ((tok = .EQUALS ∨ tok = .NOT_EQUALS ∨ tok = .LESS ∨ tok = .GREATER ∨
      tok = .LESS_EQUAL ∨ tok = .GREATER_EQUAL) →
      Operate tok a b
        = .ok (.bool (compareDenote tok (numericValue a) (numericValue b)))) := by
  cases a <;> cases b <;> simp only [ValueObject.isNumeric] at ha hb <;>
    first
      | exact Bool.noConfusion ha
      | exact Bool.noConfusion hb
      | (refine ⟨fun htok => ?_, fun htok => ?_⟩ <;>
          rcases htok with rfl | rfl | rfl | rfl | rfl | rfl <;> rfl)

/-- C8 witness: a concrete arithmetic rule (Integer owner, Double right
operand) and a concrete comparison rule. -/
theorem claim_C8_witness :
    Operate .ADD (.int 7) (.double 2)
      = .ok (ownerResult (ValueObject.int 7).cls
          (arithDenote .ADD (numericValue (.int 7)) (numericValue (.double 2)))) ∧
    Operate .LESS (.double 2) (.int 7)
      = .ok (.bool (compareDenote .LESS (numericValue (.double 2)) (numericValue (.int 7)))) :=
  ⟨(claim_C8 .ADD (.int 7) (.double 2) rfl rfl).1 (Or.inl rfl),
   (claim_C8 .LESS (.double 2) (.int 7) rfl rfl).2 (Or.inr (Or.inr (Or.inl rfl)))⟩

/-- C7: return-coverage of an if statement is true only when the body
definitely returns AND the alternate exists and definitely returns (first
conjunct, over one engine layer); consequently a function declared to
return Integer whose body is a single if with no else fails
ResolveFunctionBlock with the expected-return error (second conjunct). -/
theorem claim_C7 :
    (∀ (n : ℕ) (st : SymbolTable) (cond : Expression) (body : Block)
        (alt : Alternate) (shouldReturn : Class),
      validateIfStatementReturns (n + 1) st (IfStatement.mk cond body alt) shouldReturn
          = .ok true →
      validateBlockReturns n st body shouldReturn = .ok true ∧
      alt ≠ Alternate.noneAlt ∧
      (∀ i, alt = .elseifA i →
        validateIfStatementReturns n st i shouldReturn = .ok true) ∧
      (∀ b, alt = .blockA b →
        validateBlockReturns n st b shouldReturn = .ok true)) ∧
    resolveFunctionBlock 9 (SymbolTable.mk [] [])
      (FunctionBlock.mk none (some (.cls .integer))
        (Block.mk [BlockStatement.mk (.ifS (IfStatement.mk (.lit (.bool true))
          (Block.mk [BlockStatement.mk (.returnS (.lit (.int 1)))]) .noneAlt))]))
      none
      = .error (.nodeError ("expected return")) := by
  constructor
  · intro n st cond body alt shouldReturn h
    simp only [validateIfStatementReturns, validateBlockReturns, engine, engineStep] at h ⊢
    cases hbp : (engine n).validateBlockReturns st body shouldReturn with
    | error e => simp [hbp] at h
    | ok bp =>
        cases bp with
        | false => simp [hbp] at h
        | true =>
            simp only [hbp] at h
            cases alt with
            | noneAlt => simp at h
            | elseifA i =>
                refine ⟨rfl, by simp, ?_, ?_⟩
                · intro i2 hi
                  injection hi with hii
                  subst hii
                  simpa using h
                · intro b2 hb
                  exact Alternate.noConfusion hb
            | blockA b =>
                refine ⟨rfl, by simp, ?_, ?_⟩
                · intro i2 hi
                  exact Alternate.noConfusion hi
                · intro b2 hb
                  injection hb with hbb
                  subst hbb
                  simpa using h
  · rfl

/-- C7 witness: a concrete if with an else block that returns, fed to the
first conjunct of the coverage characterisation. -/
theorem claim_C7_witness :
    validateBlockReturns 5 (SymbolTable.mk [] [])
        (Block.mk [BlockStatement.mk (.returnS (.lit (.int 1)))]) Class.integer = .ok true ∧
    Alternate.blockA (Block.mk [BlockStatement.mk (.returnS (.lit (.int 2)))])
      ≠ Alternate.noneAlt :=
  let h := claim_C7.1 5 (SymbolTable.mk [] []) (Expression.lit (.bool true))
    (Block.mk [BlockStatement.mk (.returnS (.lit (.int 1)))])
    (Alternate.blockA (Block.mk [BlockStatement.mk (.returnS (.lit (.int 2)))]))
    Class.integer (by rfl)
  ⟨h.1, h.2.1⟩

/-- C2 (amended): case bodies of a switch run in source order for every
case whose condition compares equal to the target, stopping only at a
body that yields a return value; in particular when the FIRST matching
case body yields a return value, the switch result is that value and the
remaining cases - universally quantified here - are never reached. The
default body runs only when no case matched. (The counterexample shows
that a matching body that does not return lets later matching bodies run
as well, refuting the at-most-one reading.) -/
theorem claim_C2 (n : ℕ) (st st2 : SymbolTable) (tgtE condE : Expression)
    (body : Block) (rest : List SwitchCase) (tv cv r : ValueObject)
    (h1 : resolveValueObject st tgtE = .ok tv)
    (h2 : tv.cls.isOperable = true)
    (h3 : resolveValueObject st condE = .ok cv)
    (h4 : Operate .EQUALS tv cv = .ok (.bool true))
    (h5 : resolveBlock (n + 1) st body = .ok (st2, some r)) :
    resolveSwitchBlock (n + 2) st
      (SwitchBlock.mk tgtE (SwitchCase.mk false (some condE) body :: rest))
      = .ok (st2, some r) := by
  simp only [resolveBlock] at h5
  show (engineStep (engine (n + 1))).resolveSwitchBlock st
      (SwitchBlock.mk tgtE (SwitchCase.mk false (some condE) body :: rest))
      = .ok (st2, some r)
  simp [engineStep, switchCases, h1, h2, h3, h4, h5, faultToNode]

/-- C2 witness: a concrete two-case switch whose first case matches and
returns; the second case is never reached. -/
theorem claim_C2_witness :
    resolveSwitchBlock 3 (SymbolTable.mk [] [])
      (SwitchBlock.mk (.lit (.int 1))
        (SwitchCase.mk false (some (.lit (.int 1)))
           (Block.mk [BlockStatement.mk (.returnS (.lit (.str "a")))]) ::
         [SwitchCase.mk false (some (.lit (.int 1)))
           (Block.mk [BlockStatement.mk (.returnS (.lit (.str "b")))])]))
      = .ok (SymbolTable.mk [] [], some (.str "a")) :=
  claim_C2 1 (SymbolTable.mk [] []) (SymbolTable.mk [] []) (.lit (.int 1)) (.lit (.int 1))
    (Block.mk [BlockStatement.mk (.returnS (.lit (.str "a")))])
    [SwitchCase.mk false (some (.lit (.int 1)))
       (Block.mk [BlockStatement.mk (.returnS (.lit (.str "b")))])]
    (.int 1) (.int 1) (.str "a") rfl rfl rfl rfl rfl

/-- Helper for C10: a handler closure with no return class either fails
or produces no value - the value the body produced is dropped at the
final step of the closure built by ResolveFunctionBlock. -/
theorem callHandler_closure_none (m : ℕ) (locs imms : List (String × Object))
    (argItems : Option (List ArgumentItem)) (body : Block)
    (args : List ValueObject) (proto : Option ValueObject) (r : Option ValueObject)
    (h : (engine m).callHandler (.closure locs imms argItems none body) args proto = .ok r) :
    r = none := by
  cases m with
  | zero => simp [engine, engineBot] at h
  | succ k =>
      simp only [engine, engineStep] at h
      cases hA : applyArgumentList (SymbolTable.mk locs imms).clone argItems args with
      | error e => simp [hA] at h
      | ok t =>
          simp [hA] at h
          cases proto with
          | none =>
              cases hB : (engine k).resolveBlock t body with
              | error e => simp [hB] at h
              | ok p =>
                  obtain ⟨pa, pb⟩ := p
                  simp [hB] at h
                  exact h.symm
          | some p0 =>
              cases hB : (engine k).resolveBlock
                  { t with immut := setBinding t.immut ("self") (.val p0) } body with
              | error e => simp [hB] at h
              | ok p =>
                  obtain ⟨pa, pb⟩ := p
                  simp [hB] at h
                  exact h.symm

/-- Helper for C10: the Function produced from a FunctionBlock with no
declared return type has no return class and its handler is the closure
over the defining table with no return class. -/
theorem resolveFunctionBlock_noReturns_shape (vfuel : ℕ) (st : SymbolTable)
    (argItems : Option (List ArgumentItem)) (body : Block) (proto : Option ValueObject)
    (f : FunctionV)
    (h : resolveFunctionBlock vfuel st (FunctionBlock.mk argItems none body) proto = .ok f) :
    f.returns = none ∧
    f.handler = some (.closure st.locals st.immut argItems none body) := by
  unfold resolveFunctionBlock at h
  cases argItems with
  | none =>
      cases proto with
      | none =>
          cases hV : (engine vfuel).validateBlock (SymbolTable.clone st) body with
          | error e => simp [hV] at h
          | ok t =>
              simp [hV] at h
              subst h
              exact ⟨rfl, rfl⟩
      | some p =>
          cases hV : (engine vfuel).validateBlock
              { SymbolTable.clone st with
                immut := setBinding (SymbolTable.clone st).immut ("self") (.val p) } body with
          | error e => simp [hV] at h
          | ok t =>
              simp [hV] at h
              subst h
              exact ⟨rfl, rfl⟩
  | some items =>
      cases hR : resolveArgumentItems (SymbolTable.clone st) items with
      | error e => simp [hR] at h
      | ok pr =>
          obtain ⟨stA, argsA⟩ := pr
          cases proto with
          | none =>
              cases hV : (engine vfuel).validateBlock stA body with
              | error e => simp [hR, hV] at h
              | ok t =>
                  simp [hR, hV] at h
                  subst h
                  exact ⟨rfl, rfl⟩
          | some p =>
              cases hV : (engine vfuel).validateBlock
                  { stA with immut := setBinding stA.immut ("self") (.val p) } body with
              | error e => simp [hR, hV] at h
              | ok t =>
                  simp [hR, hV] at h
                  subst h
                  exact ⟨rfl, rfl⟩

/-- C10: a Function compiled from a FunctionBlock with no declared return
type discards the value its body produced: every successful Call returns
no value. -/
theorem claim_C10 (vfuel cfuel : ℕ) (st : SymbolTable)
    (argItems : Option (List ArgumentItem)) (body : Block)
    (proto : Option ValueObject) (f : FunctionV) (args : List ValueObject)
    (proto2 : Option ValueObject) (r : Option ValueObject)
    (h1 : resolveFunctionBlock vfuel st (FunctionBlock.mk argItems none body) proto = .ok f)
    (h2 : functionCall cfuel f args proto2 = .ok r) :
    r = none := by
  obtain ⟨hret, hh⟩ := resolveFunctionBlock_noReturns_shape vfuel st argItems body proto f h1
  cases cfuel with
  | zero => simp [functionCall, engine, engineBot] at h2
  | succ k =>
      simp only [functionCall, engine, engineStep] at h2
      by_cases hlen : args.length ≠ f.arguments.length
      · rw [if_pos hlen] at h2
        exact Except.noConfusion h2
      · rw [if_neg hlen] at h2
        cases hM : resolveMethodArguments f args with
        | error e => simp [hM] at h2
        | ok args2 =>
            simp only [hM, hh] at h2
            exact callHandler_closure_none k st.locals st.immut argItems body args2 proto2 r
              (by simpa using h2)

/-- C10 witness: a concrete function with a return statement but no
declared return type; calling it succeeds and produces no value. -/
theorem claim_C10_witness :
    functionCall 9
        (FunctionV.mk [] none (some (.closure [] [] none none
          (Block.mk [BlockStatement.mk (.returnS (.lit (.int 1)))])))) [] none
      = .ok none ∧
    (Option.none : Option ValueObject) = none :=
  ⟨rfl,
   claim_C10 3 9 (SymbolTable.mk [] []) none
     (Block.mk [BlockStatement.mk (.returnS (.lit (.int 1)))]) none
     (FunctionV.mk [] none (some (.closure [] [] none none
       (Block.mk [BlockStatement.mk (.returnS (.lit (.int 1)))])))) [] none none rfl rfl⟩

end Lang
